import Mathlib

set_option linter.unusedVariables false

/-!
Shallow embedding of two policy-engine blocks of the guardian repository:
`src/guardian-service/src/policy-engine/blocks/mint-block.ts` (class MintBlock) and
`src/guardian-service/src/policy-engine/blocks/request-vc-document-block.ts`
(class RequestVcDocumentBlock).

External collaborators (typeorm repositories, MessageServer, VcHelper, Users,
Wallet, PolicyUtils helpers) are modelled as environment records: each external
call site is represented by an environment field holding the value the
collaborator returns at that call.  Side effects (ledger submissions, record
persistence, wallet writes, triggered output events, log lines) are recorded in
an explicit event trace.  JavaScript truthiness of string-or-undefined values is
modelled on `Option String` (undefined and the empty string are falsy), and the
numeric result of `PolicyUtils.aggregate` is modelled by a classification type
`JsNum` distinguishing NaN, infinities, and finite values, which is all the
code inspects via `Number.isNaN` and `Number.isFinite`.
-/

/-- JavaScript truthiness of a string-valued expression that may be undefined:
`undefined` and the empty string are falsy. -/
def jsTruthyO : Option String → Bool
| none => false
| some s => !s.isEmpty

/-- JavaScript `a || b` for a string-or-undefined left operand with a string
default (mint-block.ts line 218: `ref.options.accountId || 'default'`). -/
def jsOr (v : Option String) (d : String) : String :=
  match v with
  | none => d
  | some s => if s.isEmpty then d else s

/-- JavaScript truthiness of a boolean-or-undefined value (the per-actor
`active` flag read in request-vc-document-block.ts line 221). -/
def jsTruthyB : Option Bool → Bool
| some true => true
| _ => false

/-- Classification of a JavaScript number as far as the mint block inspects it
(mint-block.ts line 119: `Number.isNaN(amount) || !Number.isFinite(amount)`). -/
inductive JsNum
| nanV
| posInf
| negInf
| finite (v : Int)
deriving DecidableEq

/-- `Number.isNaN`. -/
def JsNum.isNaN : JsNum → Bool
| .nanV => true
| _ => false

/-- `Number.isFinite`. -/
def JsNum.isFinite : JsNum → Bool
| .finite _ => true
| _ => false

/-- `DocumentSignature` from `@guardian/interfaces` as used by mint-block.ts
line 221 (`doc.signature === DocumentSignature.INVALID`). -/
inductive DocumentSignature
| NEW
| VERIFIED
| INVALID
deriving DecidableEq

/-- Runtime errors raised by the two blocks.  Each bare constructor stands for
one `throw new BlockActionError(message, ...)` site (or, for
`typeErrorUndefined`, the implicit TypeError raised by a property read on
`undefined`); `blockActionWrap` models the catch-and-rethrow
`throw new BlockActionError(error, ...)` wrapping. -/
inductive BErr
| badTokenId          -- 'Bad token id'
| badVC               -- 'Bad VC'
| badUserDid          -- 'Bad User DID'
| invalidVcProof      -- 'Invalid VC proof'
| noRecipient         -- 'Token recipient not set'
| invalidAmount       -- 'Invalid token value: ...'
| typeErrorUndefined  -- TypeError: cannot read properties of undefined
| submissionFailed    -- MessageServer.sendMessage rejection
| noDid               -- 'User have no any did'
| blockNotAvailable   -- 'Block not available'
| walletError         -- wallet.getKey rejection
| invalidRelationships -- 'Invalid relationships'
| waitingForSchema    -- 'Waiting for schema'
| subjectInvalid      -- JSON.stringify(res.error) after verifySubject
| createVCFailed      -- VCHelper.createVC rejection
| invalidDocument     -- 'Invalid document'
| blockActionWrap (e : BErr)
deriving DecidableEq

/-- A successful `MessageServer.sendMessage` result: the pair exposed through
`getId()` and `getTopicId()`. -/
structure LedgerOk where
  messageId : String
  topicId : String
deriving DecidableEq

/-- The outcome the ledger collaborator produces for one `sendMessage` call. -/
inductive LedgerResp
| ok (r : LedgerOk)
| failResp
deriving DecidableEq

/-- An input document of the mint block, as read from `event.data.data`
(mint-block.ts lines 205-236).  The credential payload itself is opaque. -/
structure MintDoc where
  owner : String
  signature : DocumentSignature
  messageId : Option String
  topicId : Option String
  accounts : Option (List (String × Option String))
  document : Nat
deriving DecidableEq

/-- Opaque credential document payload (`VcDocument.fromJsonTree(doc.document)`). -/
abbrev VcDoc := Nat

/-- `Token` collection record (only `tokenId` is inspected by the model). -/
structure TokenRec where
  tokenId : String
deriving DecidableEq

/-- The authenticated user / actor (`IAuthUser`).  A missing `did` is modelled
by the empty string, matching the JS falsiness test `if (!user.did)`. -/
structure AuthUser where
  did : String
  hederaAccountId : Option String
  walletToken : String
deriving DecidableEq

/-- Mint block options (`ref.options`). -/
structure MintOptions where
  tokenId : String
  rule : String
  accountId : Option String

/-- Environment of one mint-block `runAction` invocation: the values its
external collaborators return, in call order. -/
structure MintEnv where
  options : MintOptions
  tokenLookup : String → Option TokenRec      -- getMongoRepository(Token).findOne
  getUserById : String → Option AuthUser      -- users.getUserById
  aggregate : String → List VcDoc → JsNum     -- PolicyUtils.aggregate(rule, documents)
  ledger : List LedgerResp                    -- successive sendMessage outcomes

/-- Observable side effects of the mint block, in program order. -/
inductive MEv
| logT                                  -- ref.log
| warnAccounts                          -- ref.error 'More than one account found! ...'
| sendVCMsg (rels : List String)        -- messageServer.sendMessage(vcMessage)
| saveVCRec (messageId : String) (rels : List String)  -- PolicyUtils.updateVCRecord
| sendVPMsg (rels : List String)        -- messageServer.sendMessage(vpMessage)
| saveVPRec (messageId : String)        -- PolicyUtils.saveVP
| mintTok (account : String) (messageId : String)      -- PolicyUtils.mint
| runEvt                                -- ref.triggerEvents(RunEvent, ...)
| refreshEvt                            -- ref.triggerEvents(RefreshEvent, ...)
deriving DecidableEq

/-- Matches a VC ledger submission event. -/
def isVCSend : MEv → Bool
| .sendVCMsg _ => true
| _ => false

/-- Matches a VP ledger submission event. -/
def isVPSend : MEv → Bool
| .sendVPMsg _ => true
| _ => false

/-- Matches the non-fatal multi-account warning. -/
def isWarnEv : MEv → Bool
| .warnAccounts => true
| _ => false

/-- Matches any ledger submission, record persistence, or token mint effect. -/
def isLedgerEffect : MEv → Bool
| .sendVCMsg _ => true
| .sendVPMsg _ => true
| .saveVCRec _ _ => true
| .saveVPRec _ => true
| .mintTok _ _ => true
| _ => false

/-- Result of one mint-block `runAction` invocation: effect trace and outcome. -/
structure MintOut where
  trace : List MEv
  result : Except BErr Unit

/-- The guard of mint-block.ts line 206: `if (!docs.length && docs[0])`. -/
def badVcGuard (docs : List MintDoc) : Bool :=
  (docs.length == 0) && (docs.get? 0).isSome

/-- The per-document loop of mint-block.ts lines 220-237: rejects an invalid
signature, converts each document, and collects message ids, topic ids and the
account value read at `doc.accounts[field]` (possibly undefined). -/
def collectDocs (field : String) : List MintDoc →
    Except BErr (List VcDoc × List String × List String × List (Option String))
| [] => .ok ([], [], [], [])
| d :: rest =>
  if d.signature = DocumentSignature.INVALID then .error .invalidVcProof
  else
    match collectDocs field rest with
    | .error e => .error e
    | .ok (vcs, ms, ts, accs) =>
      .ok (d.document :: vcs,
        (match d.messageId with
         | some m => if m.isEmpty then ms else m :: ms
         | none => ms),
        (match d.topicId with
         | some t => if t.isEmpty then ts else t :: ts
         | none => ts),
        (match d.accounts with
         | some amap => ((amap.find? (fun p => p.1 == field)).bind Prod.snd) :: accs
         | none => accs))

/-- `accounts[0]` of mint-block.ts line 239 (undefined when the list is empty
or when the first collected value was itself undefined). -/
def firstAccount (accs : List (Option String)) : Option String :=
  (accs.get? 0).getD none

/-- `accounts.find(a => a !== firstAccounts)` of mint-block.ts line 240. -/
def accountMismatchFound (accs : List (Option String)) : Option (Option String) :=
  accs.find? (fun a => decide (a ≠ firstAccount accs))

/-- Whether the `ref.error` warning of mint-block.ts line 241 fires: the value
returned by `find` must itself be truthy. -/
def warnB (accs : List (Option String)) : Bool :=
  match accountMismatchFound accs with
  | none => false
  | some a => jsTruthyO a

/-- Recipient account resolution of mint-block.ts lines 245-247:
`ref.options.accountId ? firstAccounts : docOwner.hederaAccountId`. -/
def resolveTarget (accountId : Option String) (accs : List (Option String))
    (ownerAccount : Option String) : Option String :=
  if jsTruthyO accountId then firstAccount accs else ownerAccount

/-- `MintBlock.mintProcessing` (mint-block.ts lines 105-184), with token-unit
conversion, credential construction (`createMintVC`, `createVP`) and topic
resolution treated as opaque external calls.  The first ledger response is
consumed by the VC message submission, the second by the VP message
submission; `relationships.push(vcMessageResult.getId())` makes the VP
relationships the input list extended with the VC message id. -/
def mintProcessing (env : MintEnv) (documents : List VcDoc)
    (relationships : List String) (targetAccountId : String) :
    List MEv × Except BErr Unit :=
  let amount := env.aggregate env.options.rule documents
  if amount.isNaN || !amount.isFinite then
    ([], .error .invalidAmount)
  else
    match env.ledger with
    | LedgerResp.ok vcRes :: rest =>
      match rest with
      | LedgerResp.ok vpRes :: _ =>
        ([MEv.logT, MEv.logT,
          MEv.sendVCMsg relationships,
          MEv.saveVCRec vcRes.messageId relationships,
          MEv.sendVPMsg (relationships ++ [vcRes.messageId]),
          MEv.saveVPRec vpRes.messageId,
          MEv.mintTok targetAccountId vpRes.messageId], .ok ())
      | _ =>
        ([MEv.logT, MEv.logT,
          MEv.sendVCMsg relationships,
          MEv.saveVCRec vcRes.messageId relationships,
          MEv.sendVPMsg (relationships ++ [vcRes.messageId])],
         .error .submissionFailed)
    | _ =>
      ([MEv.logT, MEv.logT, MEv.sendVCMsg relationships], .error .submissionFailed)

/-- `MintBlock.runAction` (mint-block.ts lines 195-258). -/
def runAction (env : MintEnv) (docs : List MintDoc) : MintOut :=
  match env.tokenLookup env.options.tokenId with
  | none => ⟨[], .error .badTokenId⟩
  | some _token =>
    if badVcGuard docs then ⟨[], .error .badVC⟩
    else
      match docs.get? 0 with
      | none => ⟨[], .error .typeErrorUndefined⟩   -- docs[0].owner with docs[0] undefined
      | some d0 =>
        match env.getUserById d0.owner with
        | none => ⟨[], .error .badUserDid⟩
        | some docOwner =>
          match collectDocs (jsOr env.options.accountId "default") docs with
          | .error e => ⟨[], .error e⟩
          | .ok (vcs, ms, _ts, accs) =>
            match resolveTarget env.options.accountId accs docOwner.hederaAccountId with
            | none =>
              ⟨(if warnB accs then [MEv.warnAccounts] else []), .error .noRecipient⟩
            | some t =>
              if t.isEmpty then
                ⟨(if warnB accs then [MEv.warnAccounts] else []), .error .noRecipient⟩
              else
                match mintProcessing env vcs ms t with
                | (trM, Except.error e) =>
                  ⟨(if warnB accs then [MEv.warnAccounts] else []) ++ trM, .error e⟩
                | (trM, Except.ok _) =>
                  ⟨(if warnB accs then [MEv.warnAccounts] else []) ++ trM ++
                    [MEv.runEvt, MEv.refreshEvt], .ok ()⟩

/-- The Ledger Adapter contract of a successful submission: it returns a
concrete (non-empty) message id. -/
def ledgerOkNonEmpty : LedgerResp → Bool
| .ok r => !r.messageId.isEmpty
| .failResp => true

/- ------------------------------------------------------------------ -/
/- Request block (request-vc-document-block.ts)                        -/
/- ------------------------------------------------------------------ -/

/-- A value stored in the request block's `state` object.  Per-actor entries
are objects whose `active` property may be unset; the initial declaration
`state = { active: true }` stores the primitive `true` under the key
`"active"`. -/
inductive JsVal
| obj (active : Option Bool)
| boolV (b : Bool)
deriving DecidableEq

/-- The request block's `state` field: a JS object modelled as a key-ordered
association list. -/
abbrev RState := List (String × JsVal)

/-- The initial `state = { active: true }` of request-vc-document-block.ts
line 50. -/
def initialState : RState := [("active", JsVal.boolV true)]

/-- Property read `state[key]` / `state.hasOwnProperty(key)`. -/
def getEntry : RState → String → Option JsVal
| [], _ => none
| (k, v) :: rest, d => if k = d then some v else getEntry rest d

/-- Property write `state[key] = v` (replaces an existing entry, else appends). -/
def setEntry : RState → String → JsVal → RState
| [], d, v => [(d, v)]
| (k, w) :: rest, d, v =>
  if k = d then (k, v) :: rest else (k, w) :: setEntry rest d v

/-- The `active` property of the actor's state blob, if any. -/
def activeOf (st : RState) (did : String) : Option Bool :=
  match getEntry st did with
  | some (JsVal.obj a) => a
  | _ => none

/-- Observable side effects of the request block. -/
inductive REv
| logEv                                   -- ref.log('setData')
| errLog                                  -- ref.error(...)
| updateBlockEv                           -- ref.updateBlock(blockState, user)
| refreshEv (payload : Option Nat)        -- triggerEvents(RefreshEvent, user, payload)
| runEv (payload : Option Nat)            -- triggerEvents(RunEvent, user, payload)
| sendDIDMsg                              -- client.sendMessage(DIDMessage)
| saveDidDoc (did : String) (messageId : String)  -- DidDocument repository save
| walletSetKey (walletToken : String) (did : String) (key : String)  -- wallet.setKey
deriving DecidableEq

/-- `RequestVcDocumentBlock.changeActive` (lines 114-127): writes the actor's
`active` flag (a silent no-op when the stored value is a primitive), then
emits `updateBlock` and a RefreshEvent with `null` payload. -/
def changeActive (st : RState) (user : AuthUser) (active : Bool) :
    RState × List REv :=
  (match getEntry st user.did with
   | none => setEntry st user.did (JsVal.obj (some active))
   | some (JsVal.obj _) => setEntry st user.did (JsVal.obj (some active))
   | some (JsVal.boolV _) => st,
   [REv.updateBlockEv, REv.refreshEv none])

/-- `RequestVcDocumentBlock.getActive` (lines 133-145): lazily initializes the
actor's blob and its `active` flag; a primitive stored under the key yields
`undefined` (the property write on a primitive is a silent no-op). -/
def getActive (st : RState) (user : AuthUser) : RState × Option Bool :=
  match getEntry st user.did with
  | none => (setEntry st user.did (JsVal.obj (some true)), some true)
  | some (JsVal.obj none) => (setEntry st user.did (JsVal.obj (some true)), some true)
  | some (JsVal.obj (some b)) => (st, some b)
  | some (JsVal.boolV _) => (st, none)

/-- The `active` field of `RequestVcDocumentBlock.getData`'s response
(line 184: `active: this.getActive(user)`); the remaining response fields are
external configuration. -/
structure GetDataOut where
  active : Option Bool
deriving DecidableEq

/-- `RequestVcDocumentBlock.getData`, restricted to its stateful `active`
field. -/
def getData (st : RState) (user : AuthUser) : RState × GetDataOut :=
  ((getActive st user).1, ⟨(getActive st user).2⟩)

/-- A freshly created DID document (`DIDDocument.create`): its identifier and
private key, the document body being opaque. -/
structure DidNew where
  did : String
  key : String
deriving DecidableEq

/-- A block option value that may be a string or some non-string value
(`typeof ref.options.schema !== 'string'`). -/
inductive OptVal
| strV (s : String)
| otherV
deriving DecidableEq

/-- JS truthiness of an option value. -/
def jsTruthyOptVal : Option OptVal → Bool
| none => false
| some (OptVal.strV s) => !s.isEmpty
| some OptVal.otherV => true

/-- Request block options (`ref.options`). -/
structure ReqOptions where
  schema : Option OptVal
  presetSchema : Option OptVal
  idType : Option String

/-- Environment of one request-block invocation: what each external
collaborator returns, in call order. -/
structure ReqEnv where
  options : ReqOptions
  walletKey : Except Unit String              -- wallet.getKey
  relationshipsRes : Except Unit (Option Nat) -- PolicyUtils.getRelationships
  schemaFound : Option Nat                    -- schema repository findOne
  uuidSupply : Nat → String                   -- GenerateUUIDv4 stream
  didNew : DidNew                             -- DIDDocument.create
  ledger : List LedgerResp                    -- MessageServer.sendMessage outcomes
  verifyOk : Bool                             -- VCHelper.verifySubject(...).ok
  createVCRes : Except Unit Nat               -- VCHelper.createVC
  validatorResults : List Bool                -- each ValidatorBlock child's run result

/-- Result of one `generateId` call: effect trace, advanced uuid-stream
position, and the returned identifier (if any). -/
structure GenIdOut where
  trace : List REv
  ctr : Nat
  result : Except BErr (Option String)

/-- `RequestVcDocumentBlock.generateId` (lines 300-343).  `ctr` is the current
position in the uuid randomness stream. -/
def generateId (env : ReqEnv) (idType : Option String) (user : AuthUser)
    (ctr : Nat) : GenIdOut :=
  if idType = some "UUID" then
    ⟨[], ctr + 1, .ok (some (env.uuidSupply ctr))⟩
  else if idType = some "DID" then
    match env.ledger with
    | LedgerResp.ok r :: _ =>
      ⟨[REv.sendDIDMsg,
        REv.saveDidDoc env.didNew.did r.messageId,
        REv.walletSetKey user.walletToken env.didNew.did env.didNew.key],
       ctr, .ok (some env.didNew.did)⟩
    | _ =>
      ⟨[REv.sendDIDMsg, REv.errLog], ctr,
       .error (.blockActionWrap .submissionFailed)⟩
  else if idType = some "OWNER" then
    ⟨[], ctr, .ok (some user.did)⟩
  else
    ⟨[], ctr, .ok none⟩

/-- `RequestVcDocumentBlock.validateDocuments` (lines 84-104): every attached
validator child must accept. -/
def validateDocuments (results : List Bool) : Bool :=
  results.all (fun b => b)

/-- Result of one `setData` call: final state, effect trace, advanced uuid
position, and outcome. -/
structure SetDataOut where
  state : RState
  trace : List REv
  ctr : Nat
  result : Except BErr Unit

/-- The actor-supplied payload of `setData` (its `document` body is opaque). -/
structure SetDataIn where
  document : Nat
  ref : Option Nat

/-- The `try` body of `RequestVcDocumentBlock.setData` (lines 225-283),
beginning with the transition to Busy. -/
def setDataTry (env : ReqEnv) (st1 : RState) (user : AuthUser)
    (input : SetDataIn) (ctr : Nat) : SetDataOut :=
  let st2 := (changeActive st1 user false).1
  let tr1 := (changeActive st1 user false).2
  match env.walletKey with
  | .error _ => ⟨st2, tr1, ctr, .error .walletError⟩
  | .ok _key =>
    match env.relationshipsRes with
    | .error _ => ⟨st2, tr1 ++ [REv.errLog], ctr, .error .invalidRelationships⟩
    | .ok _documentRef =>
      match env.schemaFound with
      | none => ⟨st2, tr1, ctr, .error .waitingForSchema⟩
      | some _schema =>
        match generateId env env.options.idType user ctr with
        | ⟨trId, c2, Except.error e⟩ => ⟨st2, tr1 ++ trId, c2, .error e⟩
        | ⟨trId, c2, Except.ok _id⟩ =>
          if env.verifyOk = false then
            ⟨st2, tr1 ++ trId, c2, .error .subjectInvalid⟩
          else
            match env.createVCRes with
            | .error _ => ⟨st2, tr1 ++ trId, c2, .error .createVCFailed⟩
            | .ok _vc =>
              if validateDocuments env.validatorResults = false then
                ⟨st2, tr1 ++ trId, c2, .error .invalidDocument⟩
              else
                ⟨(changeActive st2 user true).1,
                 tr1 ++ trId ++ (changeActive st2 user true).2 ++
                   [REv.runEv (some input.document),
                    REv.refreshEv (some input.document)],
                 c2, .ok ()⟩

/-- `RequestVcDocumentBlock.setData` (lines 212-291): availability gate, then
the `try` body, with the `catch` restoring Active and rethrowing the failure
wrapped in a new BlockActionError. -/
def setData (env : ReqEnv) (st : RState) (user : AuthUser)
    (input : SetDataIn) (ctr : Nat) : SetDataOut :=
  if user.did = "" then ⟨st, [REv.logEv], ctr, .error .noDid⟩
  else
    let st1 := (getActive st user).1
    let a := (getActive st user).2
    if jsTruthyB a then
      match setDataTry env st1 user input ctr with
      | ⟨st2, tr2, c2, Except.ok _⟩ => ⟨st2, REv.logEv :: tr2, c2, .ok ()⟩
      | ⟨st2, tr2, c2, Except.error e⟩ =>
        ⟨(changeActive st2 user true).1,
         REv.logEv :: (tr2 ++ [REv.errLog] ++ (changeActive st2 user true).2),
         c2, .error (.blockActionWrap e)⟩
    else ⟨st1, [REv.logEv], ctr, .error .blockNotAvailable⟩

/-- Configuration errors recorded by `RequestVcDocumentBlock.validate`
(lines 349-382), in source order. -/
inductive VErr
| schemaNotSet      -- 'Option "schema" does not set'
| schemaNotString   -- 'Option "schema" must be a string'
| schemaNotFound    -- 'Schema with id "..." does not exist'
| presetNotFound    -- 'Schema with id "..." does not exist' (presetSchema)
| unhandled         -- 'Unhandled exception ...'
deriving DecidableEq

/-- `RequestVcDocumentBlock.validate` (lines 349-382): the errors it records
for this block, given which schema iris the repository can find.  Each
recorded error is followed by `return`. -/
def validate (opts : ReqOptions) (schemaFoundF : String → Bool)
    (presetFoundF : OptVal → Bool) : List VErr :=
  if jsTruthyOptVal opts.schema = false then [VErr.schemaNotSet]
  else
    match opts.schema with
    | some (OptVal.strV s) =>
      if schemaFoundF s = false then [VErr.schemaNotFound]
      else
        match opts.presetSchema with
        | none => []
        | some p =>
          if jsTruthyOptVal (some p) then
            if presetFoundF p = false then [VErr.presetNotFound] else []
          else []
    | _ => [VErr.schemaNotString]

/- ------------------------------------------------------------------ -/
/- Concrete fixtures used by witnesses and counterexamples             -/
/- ------------------------------------------------------------------ -/

/-- A token record matching the configured token id. -/
def tokenA : TokenRec := ⟨"tok1"⟩

/-- The owner of the fixture documents, holding a ledger account. -/
def ownerA : AuthUser := ⟨"o1", some "0.0.5", "wt"⟩

/-- Mint environment fixture: token found, owner found, finite aggregate,
two successful ledger submissions, no custom account field. -/
def mintEnvBase : MintEnv where
  options := ⟨"tok1", "sumRule", none⟩
  tokenLookup := fun _ => some tokenA
  getUserById := fun _ => some ownerA
  aggregate := fun _ _ => JsNum.finite 10
  ledger := [LedgerResp.ok ⟨"vcMsg1", "top1"⟩, LedgerResp.ok ⟨"vpMsg1", "top1"⟩]

/-- Mint environment fixture configured with a custom account option field. -/
def mintEnvAcc : MintEnv :=
  { mintEnvBase with options := ⟨"tok1", "sumRule", some "fld"⟩ }

/-- Mint environment fixture whose aggregation rule evaluates to NaN. -/
def mintEnvNaN : MintEnv :=
  { mintEnvBase with aggregate := fun _ _ => JsNum.nanV }

/-- A valid input document with a prior relationship id. -/
def docA : MintDoc := ⟨"o1", DocumentSignature.VERIFIED, some "rel1", some "topA", none, 3⟩

/-- An input document carrying an invalid signature. -/
def docInvalidSig : MintDoc := ⟨"o1", DocumentSignature.INVALID, none, none, none, 4⟩

/-- A document whose configured account field holds the empty string. -/
def docAccEmpty : MintDoc :=
  ⟨"o1", DocumentSignature.VERIFIED, some "rel2", none, some [("fld", some "")], 5⟩

/-- A document whose configured account field holds account X. -/
def docAccX : MintDoc :=
  ⟨"o1", DocumentSignature.VERIFIED, none, none, some [("fld", some "X")], 6⟩

/-- A second document whose configured account field holds account X. -/
def docAccX2 : MintDoc :=
  ⟨"o1", DocumentSignature.VERIFIED, none, none, some [("fld", some "X")], 7⟩

/-- A document whose configured account field holds the differing account Y. -/
def docAccY : MintDoc :=
  ⟨"o1", DocumentSignature.VERIFIED, none, none, some [("fld", some "Y")], 8⟩

/-- An injective uuid randomness stream. -/
def uuidStreamA : Nat → String := fun n => String.mk (List.replicate n 'a')

/-- Request environment fixture in which every collaborator succeeds. -/
def reqEnvOk : ReqEnv where
  options := ⟨some (OptVal.strV "iriA"), none, none⟩
  walletKey := .ok "wk"
  relationshipsRes := .ok none
  schemaFound := some 1
  uuidSupply := uuidStreamA
  didNew := ⟨"did:new:1", "pk1"⟩
  ledger := [LedgerResp.ok ⟨"didMsg1", "topR"⟩]
  verifyOk := true
  createVCRes := .ok 7
  validatorResults := []

/-- Request environment fixture whose relationship resolution fails. -/
def reqEnvBadRel : ReqEnv := { reqEnvOk with relationshipsRes := .error () }

/-- Request environment fixture in which one validator child rejects. -/
def reqEnvValReject : ReqEnv := { reqEnvOk with validatorResults := [true, false] }

/-- An actor with a did. -/
def userA : AuthUser := ⟨"u1", some "0.0.9", "wtA"⟩

/-- A second, distinct actor. -/
def userB : AuthUser := ⟨"u2", some "0.0.10", "wtB"⟩

/-- An actor with no did (the empty string is JS-falsy). -/
def userNoDid : AuthUser := ⟨"", none, "wtN"⟩

/-- A setData payload fixture. -/
def inputA : SetDataIn := ⟨42, none⟩

/- ------------------------------------------------------------------ -/
/- Helper lemmas: request-block state                                  -/
/- ------------------------------------------------------------------ -/

/-- Reading back the key just written. -/
theorem getEntry_setEntry_self (st : RState) (k : String) (v : JsVal) :
    getEntry (setEntry st k v) k = some v := by
  induction st with
  | nil => simp [setEntry, getEntry]
  | cons hd tl ih =>
    obtain ⟨k', w⟩ := hd
    by_cases h : k' = k
    · simp [setEntry, getEntry, h]
    · simp [setEntry, getEntry, h, ih]

/-- Writing one key leaves every other key unchanged. -/
theorem getEntry_setEntry_ne (st : RState) (k d : String) (v : JsVal)
    (h : d ≠ k) : getEntry (setEntry st k v) d = getEntry st d := by
  induction st with
  | nil => simp [setEntry, getEntry, Ne.symm h]
  | cons hd tl ih =>
    obtain ⟨k', w⟩ := hd
    by_cases hk : k' = k
    · subst hk
      simp [setEntry, getEntry, Ne.symm h]
    · simp [setEntry, getEntry, hk, ih]

/-- `changeActive` for one actor leaves every other key's entry unchanged. -/
theorem changeActive_frame (st : RState) (u : AuthUser) (b : Bool) (d : String)
    (h : d ≠ u.did) : getEntry (changeActive st u b).1 d = getEntry st d := by
  unfold changeActive
  cases hE : getEntry st u.did with
  | none => simpa using getEntry_setEntry_ne st u.did d _ h
  | some v =>
    cases v with
    | obj a => simpa using getEntry_setEntry_ne st u.did d _ h
    | boolV bb => simp

/-- `getActive` for one actor leaves every other key's entry unchanged. -/
theorem getActive_frame (st : RState) (u : AuthUser) (d : String)
    (h : d ≠ u.did) : getEntry (getActive st u).1 d = getEntry st d := by
  unfold getActive
  cases hE : getEntry st u.did with
  | none => simpa using getEntry_setEntry_ne st u.did d _ h
  | some v =>
    cases v with
    | obj a =>
      cases a with
      | none => simpa using getEntry_setEntry_ne st u.did d _ h
      | some b => simp
    | boolV bb => simp

/-- The value `getActive` returns depends only on the actor's own entry. -/
theorem getActive_eq_of_entry_eq (st1 st2 : RState) (u : AuthUser)
    (h : getEntry st1 u.did = getEntry st2 u.did) :
    (getActive st1 u).2 = (getActive st2 u).2 := by
  unfold getActive
  rw [h]
  cases hx : getEntry st2 u.did with
  | none => rfl
  | some v =>
    cases v with
    | obj a => cases a <;> rfl
    | boolV bb => rfl

/-- If `getActive` answered `true`, the actor's entry afterwards is an object
with `active = true`. -/
theorem getActive_true_entry (st : RState) (u : AuthUser)
    (h : (getActive st u).2 = some true) :
    getEntry (getActive st u).1 u.did = some (JsVal.obj (some true)) := by
  unfold getActive at h ⊢
  cases hE : getEntry st u.did with
  | none =>
    simpa using getEntry_setEntry_self st u.did (JsVal.obj (some true))
  | some v =>
    cases v with
    | obj a =>
      cases a with
      | none =>
        simpa using getEntry_setEntry_self st u.did (JsVal.obj (some true))
      | some b =>
        rw [hE] at h
        simp only at h
        cases h
        simpa using hE
    | boolV bb =>
      rw [hE] at h
      simp at h

/-- `changeActive` on an object entry (or a missing entry) stores an object
whose `active` flag is the written value. -/
theorem changeActive_entry_obj (st : RState) (u : AuthUser) (b : Bool)
    (h : getEntry st u.did = none ∨ ∃ x, getEntry st u.did = some (JsVal.obj x)) :
    getEntry (changeActive st u b).1 u.did = some (JsVal.obj (some b)) := by
  unfold changeActive
  rcases h with h | ⟨x, h⟩ <;> rw [h] <;>
    simpa using getEntry_setEntry_self st u.did (JsVal.obj (some b))

/-- Every exit of the `try` body keeps the actor's entry an object, provided
it was an object on entry. -/
theorem setDataTry_entry_obj (env : ReqEnv) (st1 : RState) (u : AuthUser)
    (input : SetDataIn) (ctr : Nat)
    (h : ∃ x, getEntry st1 u.did = some (JsVal.obj x)) :
    ∃ y, getEntry (setDataTry env st1 u input ctr).state u.did =
      some (JsVal.obj y) := by
  have h2 : getEntry (changeActive st1 u false).1 u.did =
      some (JsVal.obj (some false)) := changeActive_entry_obj st1 u false (Or.inr h)
  have h3 : getEntry (changeActive (changeActive st1 u false).1 u true).1 u.did =
      some (JsVal.obj (some true)) :=
    changeActive_entry_obj _ u true (Or.inr ⟨some false, h2⟩)
  unfold setDataTry
  split
  · exact ⟨some false, h2⟩
  · split
    · exact ⟨some false, h2⟩
    · split
      · exact ⟨some false, h2⟩
      · split
        · exact ⟨some false, h2⟩
        · split
          · exact ⟨some false, h2⟩
          · split
            · exact ⟨some false, h2⟩
            · split
              · exact ⟨some false, h2⟩
              · exact ⟨some true, h3⟩

/-- Unpacking a truthy `active` value. -/
theorem jsTruthyB_eq_true (a : Option Bool) (h : jsTruthyB a = true) :
    a = some true := by
  cases a with
  | none => exact absurd h (by simp [jsTruthyB])
  | some b =>
    cases b with
    | false => exact absurd h (by simp [jsTruthyB])
    | true => rfl

/-- Every event `generateId` can emit is a DID-creation side effect or an
error log; it never triggers Run or Refresh output events. -/
theorem generateId_trace_events (env : ReqEnv) (it : Option String)
    (u : AuthUser) (ctr : Nat) :
    ∀ ev ∈ (generateId env it u ctr).trace,
      ev = REv.sendDIDMsg ∨ ev = REv.errLog ∨
      (∃ d m, ev = REv.saveDidDoc d m) ∨
      (∃ w d k, ev = REv.walletSetKey w d k) := by
  unfold generateId
  split
  · simp
  · split
    · split
      · intro ev hev
        simp only [List.mem_cons, List.mem_singleton] at hev
        rcases hev with h | h | h | h
        · exact Or.inl h
        · exact Or.inr (Or.inr (Or.inl ⟨_, _, h⟩))
        · exact Or.inr (Or.inr (Or.inr ⟨_, _, _, h⟩))
        · exact absurd h (by simp)
      · intro ev hev
        simp only [List.mem_cons, List.mem_singleton] at hev
        rcases hev with h | h | h
        · exact Or.inl h
        · exact Or.inr (Or.inl h)
        · exact absurd h (by simp)
    · split
      · simp
      · simp

/-- A string whose `isEmpty` test is false is not the empty string. -/
theorem ne_empty_of_isEmpty_false (s : String) (h : s.isEmpty = false) :
    s ≠ "" := by
  intro hs
  subst hs
  exact absurd h (by decide)

/-- The fixture uuid stream is injective. -/
theorem uuidStreamA_injective : Function.Injective uuidStreamA := by
  intro a b h
  have h2 := congrArg (fun s => s.data.length) h
  simpa [uuidStreamA] using h2

/- ------------------------------------------------------------------ -/
/- Claim theorems: request block                                       -/
/- ------------------------------------------------------------------ -/

/-- Claim C4: for every actor and every failure occurring in the Request
block's setData after the transition to Busy (these are exactly the failures
rethrown wrapped by the catch handler), the actor's per-actor state is
restored to Active (active = true) before the error is propagated to the
caller, so the actor is never left stuck Busy. -/
theorem request_setData_restores_active_on_failure
    (env : ReqEnv) (st : RState) (user : AuthUser) (input : SetDataIn)
    (ctr : Nat) (e : BErr)
    (h : (setData env st user input ctr).result =
      Except.error (BErr.blockActionWrap e)) :
    activeOf (setData env st user input ctr).state user.did = some true := by
  by_cases hdid : user.did = ""
  · rw [setData, if_pos hdid] at h
    exact BErr.noConfusion (Except.error.inj h)
  · by_cases hact : jsTruthyB (getActive st user).2 = true
    · have hentry : getEntry (getActive st user).1 user.did =
          some (JsVal.obj (some true)) :=
        getActive_true_entry st user (jsTruthyB_eq_true _ hact)
      have hobj := setDataTry_entry_obj env (getActive st user).1 user input ctr
        ⟨some true, hentry⟩
      simp only [setData, if_neg hdid, hact, if_true] at h ⊢
      cases hT : setDataTry env (getActive st user).1 user input ctr with
      | mk st2 tr2 c2 res =>
        cases res with
        | ok v =>
          rw [hT] at h
          simp at h
        | error e' =>
          rw [hT] at hobj
          simp only at hobj
          obtain ⟨y, hy⟩ := hobj
          have hfin := changeActive_entry_obj st2 user true (Or.inr ⟨y, hy⟩)
          show activeOf (changeActive st2 user true).1 user.did = some true
          simp [activeOf, hfin]
    · rw [setData, if_neg hdid] at h
      simp only [eq_false_of_ne_true hact, if_false] at h
      exact BErr.noConfusion (Except.error.inj h)

/-- Witness for C4 at a concrete input: a relationship-resolution failure
after the Busy transition leaves the actor Active again. -/
theorem request_setData_restores_active_on_failure_witness :
    (setData reqEnvBadRel initialState userA inputA 0).result =
      Except.error (BErr.blockActionWrap BErr.invalidRelationships) ∧
    activeOf (setData reqEnvBadRel initialState userA inputA 0).state userA.did =
      some true := by
  refine ⟨rfl, ?_⟩
  exact request_setData_restores_active_on_failure reqEnvBadRel initialState
    userA inputA 0 BErr.invalidRelationships rfl

/-- Counterexample for claim C5 as stated: an actor with no did is rejected
with the no-did error ('User have no any did'), which is a different error
from the unavailable error ('Block not available') the claim names for that
case. -/
theorem request_no_did_error_counterexample :
    (setData reqEnvOk initialState userNoDid inputA 0).result =
      Except.error BErr.noDid ∧
    BErr.noDid ≠ BErr.blockNotAvailable :=
  ⟨rfl, by decide⟩

/-- Claim C5 (amended): an actor with no prior per-actor entry defaults to
active (getActive returns true); setData by an actor with no did fails with
the no-did error, and setData by an actor whose active flag is false fails
with the unavailable error; in both failure cases there is no transition to
Busy and the state is returned unchanged. -/
theorem request_availability_gate_amended (env : ReqEnv) (st : RState)
    (user : AuthUser) (input : SetDataIn) (ctr : Nat) :
    (getEntry st user.did = none → (getActive st user).2 = some true) ∧
    (user.did = "" →
      setData env st user input ctr =
        ⟨st, [REv.logEv], ctr, Except.error BErr.noDid⟩) ∧
    (user.did ≠ "" → getEntry st user.did = some (JsVal.obj (some false)) →
      setData env st user input ctr =
        ⟨st, [REv.logEv], ctr, Except.error BErr.blockNotAvailable⟩) := by
  refine ⟨?_, ?_, ?_⟩
  · intro h
    simp [getActive, h]
  · intro h
    simp [setData, h]
  · intro h1 h2
    rw [setData, if_neg h1]
    simp [getActive, h2, jsTruthyB]

/-- Witness for amended C5 at concrete inputs: a fresh actor defaults to
active; a no-did actor and an inactive actor are rejected before any Busy
transition, with the state unchanged. -/
theorem request_availability_gate_amended_witness :
    (getActive initialState userA).2 = some true ∧
    setData reqEnvOk initialState userNoDid inputA 0 =
      ⟨initialState, [REv.logEv], 0, Except.error BErr.noDid⟩ ∧
    setData reqEnvOk [("u1", JsVal.obj (some false))] userA inputA 0 =
      ⟨[("u1", JsVal.obj (some false))], [REv.logEv], 0,
       Except.error BErr.blockNotAvailable⟩ := by
  refine ⟨?_, ?_, ?_⟩
  · exact (request_availability_gate_amended reqEnvOk initialState userA
      inputA 0).1 rfl
  · exact (request_availability_gate_amended reqEnvOk initialState userNoDid
      inputA 0).2.1 rfl
  · exact (request_availability_gate_amended reqEnvOk
      [("u1", JsVal.obj (some false))] userA inputA 0).2.2 (by decide) rfl

/-- Counterexample for claim C6 as stated: when a validator child rejects,
Refresh events ARE triggered (by the Busy and Active transitions inside
changeActive), so the claim's 'no Refresh event is triggered' fails on the
code even though the invalid-document error is raised. -/
theorem request_validator_reject_refresh_counterexample :
    REv.refreshEv none ∈
      (setData reqEnvValReject initialState userA inputA 0).trace ∧
    (setData reqEnvValReject initialState userA inputA 0).result =
      Except.error (BErr.blockActionWrap BErr.invalidDocument) :=
  ⟨by decide, rfl⟩

/-- The events `changeActive` emits. -/
theorem changeActive_trace (st : RState) (u : AuthUser) (b : Bool) :
    (changeActive st u b).2 = [REv.updateBlockEv, REv.refreshEv none] := rfl

/-- Claim C6 (amended): when a validator child rejects in setData, the block
restores the actor to Active and fails with the invalid-document error; it
emits no Run event and no Refresh event carrying the document state — the
only Refresh events in the trace are the null-payload ones emitted by the
Busy/Active transitions of changeActive. -/
theorem request_validator_reject_amended
    (env : ReqEnv) (st : RState) (user : AuthUser) (input : SetDataIn)
    (ctr : Nat) (trId : List REv) (c2 : Nat) (idv : Option String)
    (hdid : user.did ≠ "")
    (hgate : (getActive st user).2 = some true)
    (hkey : ∃ k, env.walletKey = Except.ok k)
    (hrel : ∃ dr, env.relationshipsRes = Except.ok dr)
    (hschema : ∃ s, env.schemaFound = some s)
    (hid : generateId env env.options.idType user ctr = ⟨trId, c2, Except.ok idv⟩)
    (hverify : env.verifyOk = true)
    (hvc : ∃ v, env.createVCRes = Except.ok v)
    (hval : validateDocuments env.validatorResults = false) :
    (setData env st user input ctr).result =
      Except.error (BErr.blockActionWrap BErr.invalidDocument) ∧
    activeOf (setData env st user input ctr).state user.did = some true ∧
    (∀ p, REv.runEv p ∉ (setData env st user input ctr).trace) ∧
    (∀ p, REv.refreshEv (some p) ∉ (setData env st user input ctr).trace) := by
  obtain ⟨k, hk⟩ := hkey
  obtain ⟨dr, hr⟩ := hrel
  obtain ⟨sc, hs⟩ := hschema
  obtain ⟨v, hv⟩ := hvc
  have hgateB : jsTruthyB (getActive st user).2 = true := by rw [hgate]; rfl
  have hTry : setDataTry env (getActive st user).1 user input ctr =
      ⟨(changeActive (getActive st user).1 user false).1,
       (changeActive (getActive st user).1 user false).2 ++ trId, c2,
       Except.error BErr.invalidDocument⟩ := by
    simp [setDataTry, hk, hr, hs, hid, hverify, hv, hval]
  have hS : setData env st user input ctr =
      ⟨(changeActive (changeActive (getActive st user).1 user false).1 user true).1,
       REv.logEv ::
         (((changeActive (getActive st user).1 user false).2 ++ trId) ++
           [REv.errLog] ++
           (changeActive (changeActive (getActive st user).1 user false).1 user true).2),
       c2, Except.error (BErr.blockActionWrap BErr.invalidDocument)⟩ := by
    simp only [setData, if_neg hdid, hgateB, if_true, hTry]
  rw [hS]
  have hentry := getActive_true_entry st user hgate
  have h2 := changeActive_entry_obj (getActive st user).1 user false
    (Or.inr ⟨some true, hentry⟩)
  have h3 := changeActive_entry_obj (changeActive (getActive st user).1 user false).1
    user true (Or.inr ⟨some false, h2⟩)
  have htr := generateId_trace_events env env.options.idType user ctr
  rw [hid] at htr
  simp only at htr
  have hmem : ∀ ev : REv, ev ∈ (REv.logEv ::
      (((changeActive (getActive st user).1 user false).2 ++ trId) ++
        [REv.errLog] ++
        (changeActive (changeActive (getActive st user).1 user false).1 user true).2)) →
      ev = REv.logEv ∨ ev = REv.updateBlockEv ∨ ev = REv.refreshEv none ∨
      ev = REv.errLog ∨ ev ∈ trId := by
    intro ev hev
    simp only [changeActive_trace, List.mem_cons, List.mem_append,
      List.mem_singleton] at hev
    tauto
  refine ⟨rfl, by simp [activeOf, h3], ?_, ?_⟩
  · intro p hp
    rcases hmem _ hp with h | h | h | h | h
    · exact REv.noConfusion h
    · exact REv.noConfusion h
    · exact REv.noConfusion h
    · exact REv.noConfusion h
    · rcases htr _ h with h1 | h1 | ⟨d, m, h1⟩ | ⟨w, d, kk, h1⟩ <;>
        exact REv.noConfusion h1
  · intro p hp
    rcases hmem _ hp with h | h | h | h | h
    · exact REv.noConfusion h
    · exact REv.noConfusion h
    · exact Option.noConfusion (REv.refreshEv.inj h)
    · exact REv.noConfusion h
    · rcases htr _ h with h1 | h1 | ⟨d, m, h1⟩ | ⟨w, d, kk, h1⟩ <;>
        exact REv.noConfusion h1

/-- Witness for amended C6 at a concrete input: one rejecting validator
yields the wrapped invalid-document error, the actor ends Active, and no Run
or document-state Refresh event is emitted. -/
theorem request_validator_reject_amended_witness :
    (setData reqEnvValReject initialState userA inputA 0).result =
      Except.error (BErr.blockActionWrap BErr.invalidDocument) ∧
    activeOf (setData reqEnvValReject initialState userA inputA 0).state
      userA.did = some true ∧
    REv.runEv (some inputA.document) ∉
      (setData reqEnvValReject initialState userA inputA 0).trace ∧
    REv.refreshEv (some inputA.document) ∉
      (setData reqEnvValReject initialState userA inputA 0).trace := by
  have h := request_validator_reject_amended reqEnvValReject initialState
    userA inputA 0 [] 0 none (by decide) rfl ⟨"wk", rfl⟩ ⟨none, rfl⟩
    ⟨1, rfl⟩ rfl rfl ⟨7, rfl⟩ rfl
  exact ⟨h.1, h.2.1, h.2.2.1 inputA.document, h.2.2.2 inputA.document⟩

/-- Claim C8: generateId with idType 'OWNER' returns exactly the calling
actor's existing did; with 'UUID' it returns a freshly generated identifier
on each call (distinct across calls, the uuid stream being injective as the
spec's randomness contract requires); with 'DID' it submits the new DID
document to the ledger, persists it, stores the private key via the Wallet
collaborator keyed by the returned identifier, and returns that identifier;
any other idType (including unset) returns no identifier. -/
theorem request_generateId_policy (env : ReqEnv) (user : AuthUser)
    (ctr ctr2 : Nat) (r : LedgerOk) (rest : List LedgerResp) (it : Option String)
    (hinj : Function.Injective env.uuidSupply) (hne : ctr ≠ ctr2)
    (hled : env.ledger = LedgerResp.ok r :: rest)
    (hother : it = none ∨
      ∃ s, it = some s ∧ s ≠ "UUID" ∧ s ≠ "DID" ∧ s ≠ "OWNER") :
    generateId env (some "OWNER") user ctr = ⟨[], ctr, Except.ok (some user.did)⟩ ∧
    generateId env (some "UUID") user ctr =
      ⟨[], ctr + 1, Except.ok (some (env.uuidSupply ctr))⟩ ∧
    (generateId env (some "UUID") user ctr).result ≠
      (generateId env (some "UUID") user ctr2).result ∧
    generateId env (some "DID") user ctr =
      ⟨[REv.sendDIDMsg, REv.saveDidDoc env.didNew.did r.messageId,
        REv.walletSetKey user.walletToken env.didNew.did env.didNew.key],
       ctr, Except.ok (some env.didNew.did)⟩ ∧
    generateId env it user ctr = ⟨[], ctr, Except.ok none⟩ := by
  refine ⟨rfl, rfl, ?_, ?_, ?_⟩
  · intro hcon
    have h2 : (Except.ok (some (env.uuidSupply ctr)) : Except BErr (Option String)) =
        Except.ok (some (env.uuidSupply ctr2)) := hcon
    exact hne (hinj (Option.some.inj (Except.ok.inj h2)))
  · have hg : generateId env (some "DID") user ctr =
        (match env.ledger with
         | LedgerResp.ok r :: _ =>
           ⟨[REv.sendDIDMsg, REv.saveDidDoc env.didNew.did r.messageId,
             REv.walletSetKey user.walletToken env.didNew.did env.didNew.key],
            ctr, Except.ok (some env.didNew.did)⟩
         | _ => ⟨[REv.sendDIDMsg, REv.errLog], ctr,
             Except.error (BErr.blockActionWrap BErr.submissionFailed)⟩) := rfl
    rw [hg, hled]
  · rcases hother with h | ⟨s, hs, h1, h2, h3⟩
    · subst h; rfl
    · subst hs
      rw [generateId, if_neg (by simpa using h1), if_neg (by simpa using h2),
        if_neg (by simpa using h3)]

/-- Witness for C8 at concrete inputs. -/
theorem request_generateId_policy_witness :
    generateId reqEnvOk (some "OWNER") userA 0 = ⟨[], 0, Except.ok (some "u1")⟩ ∧
    (generateId reqEnvOk (some "UUID") userA 0).result ≠
      (generateId reqEnvOk (some "UUID") userA 1).result ∧
    generateId reqEnvOk (some "DID") userA 0 =
      ⟨[REv.sendDIDMsg, REv.saveDidDoc "did:new:1" "didMsg1",
        REv.walletSetKey "wtA" "did:new:1" "pk1"], 0,
       Except.ok (some "did:new:1")⟩ ∧
    generateId reqEnvOk (some "NONE") userA 0 = ⟨[], 0, Except.ok none⟩ := by
  have h := request_generateId_policy reqEnvOk userA 0 1 ⟨"didMsg1", "topR"⟩ []
    (some "NONE") uuidStreamA_injective (by decide) rfl
    (Or.inr ⟨"NONE", rfl, by decide, by decide, by decide⟩)
  exact ⟨h.1, h.2.2.1, h.2.2.2.1, h.2.2.2.2⟩

/-- Claim C9: getActive and changeActive for actor A read and modify only the
state entry keyed by A's did; a mutation under actor A is not observable
through getActive or getData for a different actor. -/
theorem request_state_isolation (st : RState) (uA uB : AuthUser) (b : Bool)
    (h : uB.did ≠ uA.did) :
    getEntry (changeActive st uA b).1 uB.did = getEntry st uB.did ∧
    getEntry (getActive st uA).1 uB.did = getEntry st uB.did ∧
    (getActive (changeActive st uA b).1 uB).2 = (getActive st uB).2 ∧
    (getActive (getActive st uA).1 uB).2 = (getActive st uB).2 ∧
    (getData (changeActive st uA b).1 uB).2 = (getData st uB).2 := by
  have h1 := changeActive_frame st uA b uB.did h
  have h2 := getActive_frame st uA uB.did h
  refine ⟨h1, h2, getActive_eq_of_entry_eq _ _ _ h1,
    getActive_eq_of_entry_eq _ _ _ h2, ?_⟩
  exact congrArg GetDataOut.mk (getActive_eq_of_entry_eq _ _ _ h1)

/-- Witness for C9 at concrete inputs: userA's mutation is invisible to
userB. -/
theorem request_state_isolation_witness :
    getEntry (changeActive initialState userA false).1 userB.did =
      getEntry initialState userB.did ∧
    (getActive (changeActive initialState userA false).1 userB).2 =
      (getActive initialState userB).2 := by
  have h := request_state_isolation initialState userA userB false (by decide)
  exact ⟨h.1, h.2.2.1⟩

/-- Claim C10: validate records at most one configuration error per
invocation; after recording an error for the schema option (missing,
non-string, or not found) it returns immediately, so a simultaneously
misconfigured presetSchema option is not reported in the same run — a
presetSchema error can only appear when the schema option was fully valid. -/
theorem request_validate_single_error (opts : ReqOptions)
    (sf : String → Bool) (pf : OptVal → Bool) :
    (validate opts sf pf).length ≤ 1 ∧
    (jsTruthyOptVal opts.schema = false →
      validate opts sf pf = [VErr.schemaNotSet]) ∧
    (opts.schema = some OptVal.otherV →
      validate opts sf pf = [VErr.schemaNotString]) ∧
    (∀ s, opts.schema = some (OptVal.strV s) → s.isEmpty = false →
      sf s = false → validate opts sf pf = [VErr.schemaNotFound]) ∧
    (VErr.presetNotFound ∈ validate opts sf pf →
      ∃ s, opts.schema = some (OptVal.strV s) ∧ sf s = true) := by
  refine ⟨?_, ?_, ?_, ?_, ?_⟩
  · unfold validate
    split
    · simp
    · split
      · split
        · simp
        · split
          · simp
          · split
            · split <;> simp
            · simp
      · simp
  · intro h
    simp [validate, h]
  · intro h
    simp [validate, h, jsTruthyOptVal]
  · intro s hs hne hsf
    simp [validate, hs, jsTruthyOptVal, hne, hsf]
  · intro hmem
    unfold validate at hmem
    by_cases ht : jsTruthyOptVal opts.schema = false
    · rw [if_pos ht] at hmem
      simp at hmem
    · rw [if_neg ht] at hmem
      cases hsch : opts.schema with
      | none =>
        rw [hsch] at hmem
        simp at hmem
      | some v =>
        cases v with
        | otherV =>
          rw [hsch] at hmem
          simp at hmem
        | strV s =>
          rw [hsch] at hmem
          by_cases hsf : sf s = false
          · simp [hsf] at hmem
          · exact ⟨s, rfl, by revert hsf; cases sf s <;> simp⟩

/-- Witness for C10 at a concrete input: schema missing and presetSchema
pointing at a non-existent schema yields exactly the single schema error. -/
theorem request_validate_single_error_witness :
    (validate ⟨none, some (OptVal.strV "missing"), none⟩ (fun _ => false)
      (fun _ => false)).length ≤ 1 ∧
    validate ⟨none, some (OptVal.strV "missing"), none⟩ (fun _ => false)
      (fun _ => false) = [VErr.schemaNotSet] := by
  have h := request_validate_single_error
    ⟨none, some (OptVal.strV "missing"), none⟩ (fun _ => false) (fun _ => false)
  exact ⟨h.1, h.2.1 rfl⟩

/- ------------------------------------------------------------------ -/
/- Helper lemmas: mint block                                           -/
/- ------------------------------------------------------------------ -/

/-- The guard `!docs.length && docs[0]` of mint-block.ts line 206 is
unsatisfiable: an empty array has no first element, and a non-empty one has
non-zero length. -/
theorem badVcGuard_false (docs : List MintDoc) : badVcGuard docs = false := by
  cases docs <;> simp [badVcGuard]

/-- Any input document with an invalid signature makes the collection loop
fail with the invalid-proof error. -/
theorem collectDocs_invalid (field : String) (docs : List MintDoc)
    (h : ∃ d ∈ docs, d.signature = DocumentSignature.INVALID) :
    collectDocs field docs = Except.error BErr.invalidVcProof := by
  induction docs with
  | nil => simp at h
  | cons d rest ih =>
    obtain ⟨d', hd', hsig⟩ := h
    simp only [List.mem_cons] at hd'
    by_cases hds : d.signature = DocumentSignature.INVALID
    · simp [collectDocs, hds]
    · have h1 : d' ∈ rest := by
        rcases hd' with h1 | h1
        · exact absurd (h1 ▸ hsig) hds
        · exact h1
      simp [collectDocs, hds, ih ⟨d', h1, hsig⟩]

/-- Successful runs of mintProcessing consumed two successful ledger
responses, and the trace is exactly the two-phase submission sequence. -/
theorem mintProcessing_ok_shape (env : MintEnv) (documents : List VcDoc)
    (rels : List String) (t : String) (trM : List MEv)
    (h : mintProcessing env documents rels t = (trM, Except.ok ())) :
    ∃ vcRes vpRes rest,
      env.ledger = LedgerResp.ok vcRes :: LedgerResp.ok vpRes :: rest ∧
      trM = [MEv.logT, MEv.logT, MEv.sendVCMsg rels,
             MEv.saveVCRec vcRes.messageId rels,
             MEv.sendVPMsg (rels ++ [vcRes.messageId]),
             MEv.saveVPRec vpRes.messageId,
             MEv.mintTok t vpRes.messageId] := by
  simp only [mintProcessing] at h
  split at h
  · exact absurd h (by simp)
  · cases hled : env.ledger with
    | nil =>
      rw [hled] at h
      exact absurd h (by simp)
    | cons r1 rest =>
      rw [hled] at h
      cases r1 with
      | failResp => exact absurd h (by simp)
      | ok vcRes =>
        cases rest with
        | nil => exact absurd h (by simp)
        | cons r2 rest2 =>
          cases r2 with
          | failResp => exact absurd h (by simp)
          | ok vpRes =>
            injection h with h1 h2
            exact ⟨vcRes, vpRes, rest2, rfl, h1.symm⟩

/-- mintProcessing never fails with the no-recipient error. -/
theorem mintProcessing_result_ne_noRecipient (env : MintEnv)
    (documents : List VcDoc) (rels : List String) (t : String) :
    (mintProcessing env documents rels t).2 ≠ Except.error BErr.noRecipient := by
  simp only [mintProcessing]
  cases hled : env.ledger with
  | nil => split <;> simp
  | cons r1 rest =>
    cases r1 with
    | failResp => split <;> simp
    | ok vcRes =>
      cases rest with
      | nil => split <;> simp
      | cons r2 rest2 =>
        cases r2 with
        | failResp => split <;> simp
        | ok vpRes => split <;> simp

/-- mintProcessing emits no multi-account warning. -/
theorem mintProcessing_no_warn (env : MintEnv) (documents : List VcDoc)
    (rels : List String) (t : String) :
    List.countP isWarnEv (mintProcessing env documents rels t).1 = 0 := by
  simp only [mintProcessing]
  cases hled : env.ledger with
  | nil => split <;> rfl
  | cons r1 rest =>
    cases r1 with
    | failResp => split <;> rfl
    | ok vcRes =>
      cases rest with
      | nil => split <;> rfl
      | cons r2 rest2 =>
        cases r2 with
        | failResp => split <;> rfl
        | ok vpRes => split <;> rfl

/-- Inversion of a successful runAction: every guard passed and the result
trace appends the optional warning, the mintProcessing trace, and the two
output events. -/
theorem runAction_ok_shape (env : MintEnv) (docs : List MintDoc) (tr : List MEv)
    (h : runAction env docs = ⟨tr, Except.ok ()⟩) :
    ∃ d0 docOwner vcs ms ts accs t trM,
      docs.get? 0 = some d0 ∧
      env.getUserById d0.owner = some docOwner ∧
      collectDocs (jsOr env.options.accountId "default") docs =
        Except.ok (vcs, ms, ts, accs) ∧
      resolveTarget env.options.accountId accs docOwner.hederaAccountId = some t ∧
      t.isEmpty = false ∧
      mintProcessing env vcs ms t = (trM, Except.ok ()) ∧
      tr = (if warnB accs then [MEv.warnAccounts] else []) ++ trM ++
        [MEv.runEvt, MEv.refreshEvt] := by
  simp only [runAction, badVcGuard_false, Bool.false_eq_true, if_false] at h
  split at h
  · exact absurd h (by simp)
  · split at h
    · exact absurd h (by simp)
    · split at h
      · exact absurd h (by simp)
      · split at h
        · exact absurd h (by simp)
        · split at h
          · exact absurd h (by simp)
          · split at h
            · exact absurd h (by simp)
            · split at h
              · exact absurd h (by simp)
              · rename_i xt tok htok xd d0 hd0 xo docOwner hown xc vcs ms ts accs hcol xr t hrt hte xm trM u hmp
                cases u
                injection h with h1 h2
                exact ⟨d0, docOwner, vcs, ms, ts, accs, t, trM,
                  hd0, hown, hcol, hrt, by simpa using hte, hmp, h1.symm⟩

/- ------------------------------------------------------------------ -/
/- Claim theorems: mint block                                          -/
/- ------------------------------------------------------------------ -/

/-- Claim C1: in every successful run of the Mint block, the VP message's
relationships are exactly the input documents' prior relationship ids
extended with the messageId returned by the VC submission; under the Ledger
Adapter contract that successful submissions return concrete ids, that VC
messageId is non-empty when the VP is assembled; and the unique VP
submission occurs strictly after the unique VC submission in the effect
trace, so the VP submission never begins before the VC submission has
returned its messageId. -/
theorem mint_two_phase_submission (env : MintEnv) (docs : List MintDoc)
    (out : MintOut) (h : runAction env docs = out)
    (hok : out.result = Except.ok ())
    (hled : ∀ r ∈ env.ledger, ledgerOkNonEmpty r = true) :
    ∃ ms vcId,
      (∃ vcs ts accs, collectDocs (jsOr env.options.accountId "default") docs =
        Except.ok (vcs, ms, ts, accs)) ∧
      vcId ≠ "" ∧
      (∃ i j, i < j ∧ out.trace.get? i = some (MEv.sendVCMsg ms) ∧
        out.trace.get? j = some (MEv.sendVPMsg (ms ++ [vcId]))) ∧
      List.countP isVCSend out.trace = 1 ∧
      List.countP isVPSend out.trace = 1 := by
  obtain ⟨tr, res⟩ := out
  simp only at hok
  subst hok
  obtain ⟨d0, docOwner, vcs, ms, ts, accs, t, trM, hd0, hown, hcol, hrt, hte,
    hmp, htr⟩ := runAction_ok_shape env docs tr h
  obtain ⟨vcRes, vpRes, rest, hledEq, hM⟩ :=
    mintProcessing_ok_shape env vcs ms t trM hmp
  have hvc : ledgerOkNonEmpty (LedgerResp.ok vcRes) = true := by
    apply hled
    rw [hledEq]
    exact List.mem_cons_self _ _
  have hne : vcRes.messageId ≠ "" := by
    apply ne_empty_of_isEmpty_false
    simpa [ledgerOkNonEmpty] using hvc
  subst hM
  subst htr
  refine ⟨ms, vcRes.messageId, ⟨vcs, ts, accs, hcol⟩, hne, ?_, ?_, ?_⟩
  · cases hw : warnB accs
    · exact ⟨2, 4, by omega, rfl, rfl⟩
    · exact ⟨3, 5, by omega, rfl, rfl⟩
  · cases hw : warnB accs <;> rfl
  · cases hw : warnB accs <;> rfl

/-- Witness for C1 at a concrete input: a one-document run with two
successful ledger submissions. -/
theorem mint_two_phase_submission_witness :
    ∃ ms vcId,
      (∃ vcs ts accs, collectDocs (jsOr mintEnvBase.options.accountId "default")
        [docA] = Except.ok (vcs, ms, ts, accs)) ∧
      vcId ≠ "" ∧
      (∃ i j, i < j ∧
        (runAction mintEnvBase [docA]).trace.get? i = some (MEv.sendVCMsg ms) ∧
        (runAction mintEnvBase [docA]).trace.get? j =
          some (MEv.sendVPMsg (ms ++ [vcId]))) ∧
      List.countP isVCSend (runAction mintEnvBase [docA]).trace = 1 ∧
      List.countP isVPSend (runAction mintEnvBase [docA]).trace = 1 :=
  mint_two_phase_submission mintEnvBase [docA] (runAction mintEnvBase [docA])
    rfl rfl (by decide)

/-- Claim C2: whenever the aggregation rule yields NaN or an infinite value
on a run that reaches it, runAction fails with the invalid-amount error,
performs zero ledger submissions and persists nothing (the only possible
trace event is the non-fatal account warning), and triggers no Run or
Refresh output event. -/
theorem mint_invalid_amount_aborts (env : MintEnv) (docs : List MintDoc)
    (tok : TokenRec) (d0 : MintDoc) (docOwner : AuthUser) (vcs : List VcDoc)
    (ms ts : List String) (accs : List (Option String)) (t : String)
    (htok : env.tokenLookup env.options.tokenId = some tok)
    (hd0 : docs.get? 0 = some d0)
    (hown : env.getUserById d0.owner = some docOwner)
    (hcol : collectDocs (jsOr env.options.accountId "default") docs =
      Except.ok (vcs, ms, ts, accs))
    (hrt : resolveTarget env.options.accountId accs docOwner.hederaAccountId =
      some t)
    (hte : t.isEmpty = false)
    (hamt : ((env.aggregate env.options.rule vcs).isNaN ||
      !(env.aggregate env.options.rule vcs).isFinite) = true) :
    (runAction env docs).result = Except.error BErr.invalidAmount ∧
    (∀ ev ∈ (runAction env docs).trace, ev = MEv.warnAccounts) ∧
    List.countP isLedgerEffect (runAction env docs).trace = 0 ∧
    MEv.runEvt ∉ (runAction env docs).trace ∧
    MEv.refreshEvt ∉ (runAction env docs).trace := by
  have hmp : mintProcessing env vcs ms t =
      ([], Except.error BErr.invalidAmount) := by
    simp [mintProcessing, hamt]
  have hra : runAction env docs =
      ⟨(if warnB accs then [MEv.warnAccounts] else []),
       Except.error BErr.invalidAmount⟩ := by
    simp only [runAction, badVcGuard_false, Bool.false_eq_true, if_false,
      htok, hd0, hown, hcol, hrt, hte, hmp, List.append_nil]
  rw [hra]
  cases hw : warnB accs <;> refine ⟨rfl, ?_, ?_, ?_, ?_⟩ <;>
    simp [isLedgerEffect]

/-- Witness for C2 at a concrete input: a NaN-valued aggregation aborts with
the invalid-amount error and an effect-free trace. -/
theorem mint_invalid_amount_aborts_witness :
    (runAction mintEnvNaN [docA]).result = Except.error BErr.invalidAmount ∧
    List.countP isLedgerEffect (runAction mintEnvNaN [docA]).trace = 0 ∧
    MEv.runEvt ∉ (runAction mintEnvNaN [docA]).trace ∧
    MEv.refreshEvt ∉ (runAction mintEnvNaN [docA]).trace := by
  have h := mint_invalid_amount_aborts mintEnvNaN [docA] tokenA docA ownerA
    [3] ["rel1"] ["topA"] [] "0.0.5" rfl rfl rfl rfl rfl rfl rfl
  exact ⟨h.1, h.2.2.1, h.2.2.2.1, h.2.2.2.2⟩

/-- Claim C3 (code bug): the guard of mint-block.ts line 206,
`!docs.length && docs[0]`, is unsatisfiable, so the bad-document ('Bad VC')
error is never thrown; on an empty input document list runAction instead
fails with the TypeError from reading `docs[0].owner` on undefined.  The
invalid-signature half of the claim does hold: a document with an invalid
signature fails the run with the invalid-proof error. -/
theorem mint_empty_docs_guard_dead :
    (∀ docs : List MintDoc, badVcGuard docs = false) ∧
    runAction mintEnvBase [] = ⟨[], Except.error BErr.typeErrorUndefined⟩ ∧
    BErr.typeErrorUndefined ≠ BErr.badVC ∧
    collectDocs "default" [docInvalidSig] = Except.error BErr.invalidVcProof ∧
    (runAction mintEnvBase [docInvalidSig]).result =
      Except.error BErr.invalidVcProof :=
  ⟨badVcGuard_false, rfl, by decide, rfl, rfl⟩

/-- Counterexample for claim C7 as stated: with collected account values
["", "X"] the first (empty) value wins and runAction fails with the
no-recipient error even though the non-empty value X exists among the input
documents — the code does not take the first non-empty value. -/
theorem mint_first_account_counterexample :
    collectDocs "fld" [docAccEmpty, docAccX] =
      Except.ok ([5, 6], ["rel2"], [], [some "", some "X"]) ∧
    runAction mintEnvAcc [docAccEmpty, docAccX] =
      ⟨[MEv.warnAccounts], Except.error BErr.noRecipient⟩ :=
  ⟨rfl, rfl⟩

/-- Claim C7 (amended): with a configured account option field the recipient
is the first collected account value — taken even when empty or undefined,
in which case runAction fails with the no-recipient error regardless of
later non-empty values; without the option the recipient is the document
owner's ledger account; the run fails with the no-recipient error exactly
when the resolved value is falsy; and at most one non-fatal warning is
recorded, exactly when some collected value differs from the first and the
first differing value is non-empty. -/
theorem mint_recipient_resolution_amended (env : MintEnv) (docs : List MintDoc)
    (tok : TokenRec) (d0 : MintDoc) (docOwner : AuthUser) (vcs : List VcDoc)
    (ms ts : List String) (accs : List (Option String))
    (htok : env.tokenLookup env.options.tokenId = some tok)
    (hd0 : docs.get? 0 = some d0)
    (hown : env.getUserById d0.owner = some docOwner)
    (hcol : collectDocs (jsOr env.options.accountId "default") docs =
      Except.ok (vcs, ms, ts, accs)) :
    (jsTruthyO env.options.accountId = true →
      resolveTarget env.options.accountId accs docOwner.hederaAccountId =
        firstAccount accs) ∧
    (jsTruthyO env.options.accountId = false →
      resolveTarget env.options.accountId accs docOwner.hederaAccountId =
        docOwner.hederaAccountId) ∧
    (jsTruthyO (resolveTarget env.options.accountId accs
        docOwner.hederaAccountId) = false →
      (runAction env docs).result = Except.error BErr.noRecipient) ∧
    (jsTruthyO (resolveTarget env.options.accountId accs
        docOwner.hederaAccountId) = true →
      (runAction env docs).result ≠ Except.error BErr.noRecipient) ∧
    List.countP isWarnEv (runAction env docs).trace =
      (if warnB accs then 1 else 0) := by
  have hrun : runAction env docs =
      (match resolveTarget env.options.accountId accs docOwner.hederaAccountId with
       | none => MintOut.mk (if warnB accs then [MEv.warnAccounts] else [])
           (Except.error BErr.noRecipient)
       | some t =>
         if t.isEmpty then
           MintOut.mk (if warnB accs then [MEv.warnAccounts] else [])
             (Except.error BErr.noRecipient)
         else
           match mintProcessing env vcs ms t with
           | (trM, Except.error e) =>
             MintOut.mk ((if warnB accs then [MEv.warnAccounts] else []) ++ trM)
               (Except.error e)
           | (trM, Except.ok _) =>
             MintOut.mk ((if warnB accs then [MEv.warnAccounts] else []) ++
               trM ++ [MEv.runEvt, MEv.refreshEvt]) (Except.ok ())) := by
    simp only [runAction, badVcGuard_false, Bool.false_eq_true, if_false,
      htok, hd0, hown, hcol]
  refine ⟨?_, ?_, ?_, ?_, ?_⟩
  · intro h
    unfold resolveTarget
    rw [if_pos h]
  · intro h
    unfold resolveTarget
    rw [if_neg (by simp [h])]
  · intro h
    rw [hrun]
    cases hrt : resolveTarget env.options.accountId accs
        docOwner.hederaAccountId with
    | none => rfl
    | some t =>
      rw [hrt] at h
      have hE : t.isEmpty = true := by simpa [jsTruthyO] using h
      simp [hE]
  · intro h
    rw [hrun]
    cases hrt : resolveTarget env.options.accountId accs
        docOwner.hederaAccountId with
    | none =>
      rw [hrt] at h
      simp [jsTruthyO] at h
    | some t =>
      rw [hrt] at h
      have hE : t.isEmpty = false := by simpa [jsTruthyO] using h
      simp only [hE, Bool.false_eq_true, if_false]
      cases hmp : mintProcessing env vcs ms t with
      | mk trM res =>
        have hr2 := mintProcessing_result_ne_noRecipient env vcs ms t
        rw [hmp] at hr2
        cases res with
        | error e => exact hr2
        | ok u => exact fun hcon => Except.noConfusion hcon
  · rw [hrun]
    cases hrt : resolveTarget env.options.accountId accs
        docOwner.hederaAccountId with
    | none => cases hw : warnB accs <;> rfl
    | some t =>
      by_cases hE : t.isEmpty = true
      · simp only [hE, if_true]
        cases hw : warnB accs <;> rfl
      · have hE2 : t.isEmpty = false := by
          revert hE
          cases t.isEmpty <;> simp
        simp only [hE2, Bool.false_eq_true, if_false]
        cases hmp : mintProcessing env vcs ms t with
        | mk trM res =>
          have hnw := mintProcessing_no_warn env vcs ms t
          rw [hmp] at hnw
          simp only at hnw
          cases res with
          | error e =>
            show List.countP isWarnEv
              ((if warnB accs then [MEv.warnAccounts] else []) ++ trM) = _
            rw [List.countP_append, hnw]
            cases hw : warnB accs <;> rfl
          | ok u =>
            cases u
            show List.countP isWarnEv
              ((if warnB accs then [MEv.warnAccounts] else []) ++ trM ++
                [MEv.runEvt, MEv.refreshEvt]) = _
            rw [List.countP_append, List.countP_append, hnw]
            cases hw : warnB accs <;> rfl

/-- Witness for amended C7 at the concrete account values [X, X, Y]: the
recipient resolves to X, exactly one warning is recorded, and the run does
not fail with the no-recipient error. -/
theorem mint_recipient_resolution_amended_witness :
    collectDocs "fld" [docAccX, docAccX2, docAccY] =
      Except.ok ([6, 7, 8], [], [], [some "X", some "X", some "Y"]) ∧
    resolveTarget (some "fld") [some "X", some "X", some "Y"] (some "0.0.5") =
      some "X" ∧
    List.countP isWarnEv
      (runAction mintEnvAcc [docAccX, docAccX2, docAccY]).trace = 1 ∧
    (runAction mintEnvAcc [docAccX, docAccX2, docAccY]).result ≠
      Except.error BErr.noRecipient := by
  have h := mint_recipient_resolution_amended mintEnvAcc
    [docAccX, docAccX2, docAccY] tokenA docAccX ownerA [6, 7, 8] [] []
    [some "X", some "X", some "Y"] rfl rfl rfl rfl
  exact ⟨rfl, h.1 rfl, h.2.2.2.2, h.2.2.2.1 rfl⟩
